import Mathlib

/-!
Shallow embedding of the Hacker News "sorted by newest" verification script
(`sortHackerNewsArticles` / `validateArticlesOnPage` / `random_delay`).

Modelling conventions:
* A JavaScript `Date` is `Option Int`: `some t` is a valid date whose time
  value is `t` (milliseconds since the epoch), `none` is an Invalid Date
  (time value `NaN`).  JS relational comparison of dates compares time
  values and every comparison with `NaN` is `false`; `jsDateGt` / `jsDateGe`
  reproduce this.
* A fetched listing page is the triple of element lists the script extracts:
  `.age` timestamp attributes (already passed through `new Date(...)`),
  `.athing` title rows and `.score` id cells.
* The site reached through the browser is a function from the number of
  "More" clicks performed so far to the page content shown, plus the number
  of `.morelink` buttons present at that point (`moreCount 0` is the page
  loaded by the initial `goto`, `moreCount (k+1)` the page after the k-th
  click, whose articles are `pages (k+1)`).
* `process.exit(-1)` / the `exit(-1)` call on the structural-mismatch path
  (an undefined identifier whose thrown ReferenceError likewise aborts the
  process with a non-zero code before any comparison) are modelled as an
  error result; `process.exit(0)` as a successful result.  `RunOutcome`
  additionally records how many "More" clicks (article-page fetches) were
  performed and whether `page.close()` was reached before the process
  terminated.
* The `while` loop of `sortHackerNewsArticles` need not terminate, so the
  runner is fuel-indexed: `none` means the loop was still running after
  `fuel` iterations.
* `Math.random()` draws are an explicit stream `rand : Nat → Nat`, each
  value being the already-floored `Math.floor(Math.random() * ms_range)`;
  the two `random_delay` pacing waits per iteration consume `rand (2*k)`
  and `rand (2*k+1)` and, as in the script, feed only `page.waitForTimeout`.
-/

/-- A JavaScript `Date`: `some` time value, or `none` for an Invalid Date. -/
abbrev JSDate : Type := Option Int

/-- JS `a > b` on dates: compares time values; false if either is `NaN`. -/
def jsDateGt : JSDate → JSDate → Bool
  | some a, some b => a > b
  | _, _ => false

/-- JS `a >= b` on dates: compares time values; false if either is `NaN`. -/
def jsDateGe : JSDate → JSDate → Bool
  | some a, some b => a ≥ b
  | _, _ => false

/-- The failure taxonomy of the script's fatal exits. -/
inductive RunError : Type
  | OrderViolation
  | StructuralMismatch
  | NavigationFailure
  deriving DecidableEq, Repr

/-- Result of a (partial) run: the payload of a success, or a fatal error. -/
inductive VResult (α : Type) : Type
  | ok : α → VResult α
  | err : RunError → VResult α
  deriving DecidableEq, Repr

/-- The element lists extracted from one listing page. -/
structure HNPage : Type where
  ages : List JSDate
  athings : List String
  scores : List String

/-- The site as seen through pagination: page content and `.morelink` count
after a given number of "More" clicks. -/
structure Site : Type where
  pages : Nat → HNPage
  moreCount : Nat → Nat

/-- What a whole run produces: the final result (`ok` carries the final
`article_index`), the number of "More" clicks (article-page fetches)
performed, and whether `page.close()` ran before the process exited. -/
structure RunOutcome : Type where
  result : VResult Nat
  clicks : Nat
  pageClosed : Bool
  deriving DecidableEq, Repr

/-- The process exit status determined by a run outcome: `0` from
`process.exit(0)` on success, `-1` (non-zero) on every fatal failure. -/
def exitCode (o : RunOutcome) : Int :=
  match o.result with
  | .ok _ => 0
  | .err _ => -1

/-- Model of `random_delay(ms_min_time, ms_range)` where `draw` stands for
the value `Math.floor(Math.random() * ms_range)` of this call's sample. -/
def random_delay (ms_min_time _ms_range draw : Nat) : Nat :=
  ms_min_time + draw

/-- The `for` loop of `validateArticlesOnPage` over the timestamps of the
entries selected for checking: fatal `OrderViolation` the moment an entry's
timestamp is `>` the current bound, otherwise accept, set the bound to this
entry's timestamp and increment `article_index`. -/
def checkEntries : List JSDate → Nat → JSDate → VResult (Nat × JSDate)
  | [], article_index, newest_timestamp => .ok (article_index, newest_timestamp)
  | t :: ts, article_index, newest_timestamp =>
    if jsDateGt t newest_timestamp then .err .OrderViolation
    else checkEntries ts (article_index + 1) t

/-- Value of `Math.min(count_athings, num_of_articles_to_validate -
article_index + 1)`, clamped at `0` exactly as the `for` loop guard `i < n`
clamps a negative bound to zero iterations. -/
def numToCheckOnPage (count_athings T article_index : Nat) : Nat :=
  (min (count_athings : Int) ((T : Int) - (article_index : Int) + 1)).toNat

/-- Embedding of `validateArticlesOnPage`: first the structural precondition (`count_ages`,
`count_athings`, `count_scores` must agree), a fatal `StructuralMismatch`
otherwise; then the per-entry order check over the first
`numToCheckOnPage` timestamps. -/
def validateArticlesOnPage (p : HNPage) (article_index T : Nat)
    (newest_timestamp : JSDate) : VResult (Nat × JSDate) :=
  let count_ages := p.ages.length
  let count_athings := p.athings.length
  let count_scores := p.scores.length
  if count_ages ≠ count_athings ∨ count_ages ≠ count_scores then
    .err .StructuralMismatch
  else
    checkEntries (p.ages.take (numToCheckOnPage count_athings T article_index))
      article_index newest_timestamp

/-- The `while (article_index <= num_of_articles_to_validate)` loop of
`sortHackerNewsArticles`, fuel-indexed.  `k` counts the "More" clicks made so
far.  Each iteration waits two `random_delay(200,800)` pacing delays (which
touch nothing but the clock), clicks "More", fails fatally if the `.morelink`
count is then not exactly 1, and otherwise validates the freshly shown page.
Error exits happen before `page.close()`; the success path returns to the
caller, which closes the page and then exits 0. -/
def runLoop (site : Site) (rand : Nat → Nat) :
    Nat → Nat → Nat → Nat → JSDate → Option RunOutcome
  | 0, _, _, _, _ => none
  | fuel + 1, k, article_index, T, newest_timestamp =>
    if article_index ≤ T then
      let _delay1 := random_delay 200 800 (rand (2 * k))
      let _delay2 := random_delay 200 800 (rand (2 * k + 1))
      if site.moreCount (k + 1) ≠ 1 then
        some ⟨.err .NavigationFailure, k + 1, false⟩
      else
        match validateArticlesOnPage (site.pages (k + 1)) article_index T
            newest_timestamp with
        | .err e => some ⟨.err e, k + 1, false⟩
        | .ok (article_index', newest_timestamp') =>
          runLoop site rand fuel (k + 1) article_index' T newest_timestamp'
    else
      some ⟨.ok article_index, k, true⟩

/-- The hard-coded target of the script. -/
def num_of_articles_to_validate : Nat := 100

/-- Embedding of `sortHackerNewsArticles`, parameterised by the target count `T` (the
script fixes it to `num_of_articles_to_validate`) and by `now`, the time
value of the `new Date()` taken as the initial upper bound.  The initial
`goto` shows the un-validated front page; `expect(more_button).toHaveCount(1)`
aborts the run (non-zero, page never closed) unless exactly one `.morelink`
is present, and then the pagination loop starts at `article_index = 1` with
zero clicks performed. -/
def sortHackerNewsArticles (site : Site) (rand : Nat → Nat) (T fuel : Nat)
    (now : Int) : Option RunOutcome :=
  if site.moreCount 0 ≠ 1 then some ⟨.err .NavigationFailure, 0, false⟩
  else runLoop site rand fuel 0 1 T (some now)

/-! ## Concrete fixtures used by witnesses and counterexamples -/

/-- The constant-zero stream of random draws. -/
def rand0 : Nat → Nat := fun _ => 0

/-- A listing page with 30 structurally consistent entries, all bearing the
same (valid) timestamp. -/
def page30 : HNPage :=
  ⟨List.replicate 30 (some 0), List.replicate 30 "t", List.replicate 30 "s"⟩

/-- A site every "More" click of which shows `page30` (pages of size 30). -/
def site30 : Site := ⟨fun _ => page30, fun _ => 1⟩

/-- Scenario C's page: 5 timestamps, 4 titles, 5 ids. -/
def pageMismatch : HNPage :=
  ⟨List.replicate 5 (some 0), List.replicate 4 "t", List.replicate 5 "s"⟩

/-- A site whose pages all render inconsistently as `pageMismatch`. -/
def siteMismatch : Site := ⟨fun _ => pageMismatch, fun _ => 1⟩

/-- Scenario B's site: a page whose second entry is strictly newer than its
first. -/
def siteViolation : Site :=
  ⟨fun _ => ⟨[some 600, some 660], ["a", "b"], ["s1", "s2"]⟩, fun _ => 1⟩

/-- A structurally consistent page with zero entries. -/
def emptyPage : HNPage := ⟨[], [], []⟩

/-- A site all of whose pages are empty (counts 0 = 0 = 0). -/
def emptySite : Site := ⟨fun _ => emptyPage, fun _ => 1⟩

/-- A site whose page carries an Invalid-Date timestamp between two valid
ones that are in strictly increasing (wrong) order. -/
def siteInvalidMiddle : Site :=
  ⟨fun _ => ⟨[some 100, none, some 200], ["a", "b", "c"], ["s1", "s2", "s3"]⟩,
   fun _ => 1⟩

/-- A site whose page starts with an Invalid-Date timestamp followed by two
valid timestamps in strictly increasing (wrong) order. -/
def siteInvalidFirst : Site :=
  ⟨fun _ => ⟨[none, some 100, some 200], ["a", "b", "c"], ["s1", "s2", "s3"]⟩,
   fun _ => 1⟩

/-! ## Helper lemmas -/

/-- JS comparison: an Invalid Date is `>` nothing. -/
lemma jsDateGt_none_left (b : JSDate) : jsDateGt none b = false := by
  cases b <;> rfl

/-- JS comparison: nothing is `>` an Invalid Date. -/
lemma jsDateGt_none_right (t : JSDate) : jsDateGt t none = false := by
  cases t <;> rfl

/-- Every checked entry increments `article_index` by exactly one. -/
lemma checkEntries_ok_length :
    ∀ (ts : List JSDate) (idx : Nat) (b : JSDate) (n : Nat) (b' : JSDate),
      checkEntries ts idx b = .ok (n, b') → n = idx + ts.length := by
  intro ts
  induction ts with
  | nil =>
    intro idx b n b' h
    simp only [checkEntries, VResult.ok.injEq, Prod.mk.injEq] at h
    simp [h.1]
  | cons t ts ih =>
    intro idx b n b' h
    simp only [checkEntries] at h
    by_cases hgt : jsDateGt t b = true
    · rw [if_pos hgt] at h
      exact absurd h (by simp)
    · rw [if_neg hgt] at h
      have := ih (idx + 1) t n b' h
      simp [this]
      omega

/-- A page that validates successfully never pushes `article_index` past
`T + 1`: at most `T - article_index + 1` of its entries are checked. -/
lemma validateArticlesOnPage_ok_le :
    ∀ (p : HNPage) (idx T : Nat) (b : JSDate) (n : Nat) (b' : JSDate),
      idx ≤ T → validateArticlesOnPage p idx T b = .ok (n, b') →
      n ≤ T + 1 := by
  intro p idx T b n b' hle h
  simp only [validateArticlesOnPage] at h
  by_cases hm : p.ages.length ≠ p.athings.length ∨ p.ages.length ≠ p.scores.length
  · rw [if_pos hm] at h
    exact absurd h (by simp)
  · rw [if_neg hm] at h
    have hn := checkEntries_ok_length _ _ _ _ _ h
    have hlen : (p.ages.take (numToCheckOnPage p.athings.length T idx)).length
        ≤ numToCheckOnPage p.athings.length T idx := by
      simp [List.length_take]
    have hnum : numToCheckOnPage p.athings.length T idx ≤ T + 1 - idx := by
      unfold numToCheckOnPage
      omega
    omega

/-- Loop invariant of `runLoop`: started at an `article_index ≤ T + 1`, a
successful outcome carries final index exactly `T + 1`. -/
lemma runLoop_ok_target :
    ∀ (site : Site) (rand : Nat → Nat) (fuel k idx T : Nat) (b : JSDate)
      (o : RunOutcome) (n : Nat),
      runLoop site rand fuel k idx T b = some o →
      idx ≤ T + 1 → o.result = .ok n → n = T + 1 := by
  intro site rand fuel
  induction fuel with
  | zero =>
    intro k idx T b o n h
    exact absurd h (by simp [runLoop])
  | succ fuel ih =>
    intro k idx T b o n h hle hok
    simp only [runLoop] at h
    by_cases hidx : idx ≤ T
    · rw [if_pos hidx] at h
      by_cases hm : site.moreCount (k + 1) ≠ 1
      · rw [if_pos hm] at h
        injection h with h
        rw [← h] at hok
        exact absurd hok (by simp)
      · rw [if_neg hm] at h
        cases hv : validateArticlesOnPage (site.pages (k + 1)) idx T b with
        | err e =>
          rw [hv] at h
          injection h with h
          rw [← h] at hok
          exact absurd hok (by simp)
        | ok pr =>
          obtain ⟨idx', b'⟩ := pr
          rw [hv] at h
          have hidx' : idx' ≤ T + 1 :=
            validateArticlesOnPage_ok_le _ _ _ _ _ _ hidx hv
          exact ih (k + 1) idx' T b' o n h hidx' hok
    · rw [if_neg hidx] at h
      injection h with h
      rw [← h] at hok
      simp only [VResult.ok.injEq] at hok
      omega

/-- The random pacing draws never reach the verification state: `runLoop`
returns the same value for any two draw streams. -/
lemma runLoop_rand_irrelevant :
    ∀ (site : Site) (rand₁ rand₂ : Nat → Nat) (fuel k idx T : Nat)
      (b : JSDate),
      runLoop site rand₁ fuel k idx T b = runLoop site rand₂ fuel k idx T b := by
  intro site rand₁ rand₂ fuel
  induction fuel with
  | zero => intro k idx T b; rfl
  | succ fuel ih =>
    intro k idx T b
    simp only [runLoop]
    by_cases hidx : idx ≤ T
    · rw [if_pos hidx, if_pos hidx]
      by_cases hm : site.moreCount (k + 1) ≠ 1
      · rw [if_pos hm, if_pos hm]
      · rw [if_neg hm, if_neg hm]
        cases hv : validateArticlesOnPage (site.pages (k + 1)) idx T b with
        | err e => rfl
        | ok pr =>
          obtain ⟨idx', b'⟩ := pr
          exact ih (k + 1) idx' T b'
    · rw [if_neg hidx, if_neg hidx]

/-- An empty page passes the structural check (0 = 0 = 0) and evaluates zero
entries, leaving the cursor untouched. -/
lemma validate_emptyPage (idx T : Nat) (b : JSDate) :
    validateArticlesOnPage emptyPage idx T b = .ok (idx, b) := by
  simp [validateArticlesOnPage, emptyPage, numToCheckOnPage, checkEntries]

/-- On the all-empty site the loop makes no progress: it never terminates
while `article_index ≤ T`. -/
lemma runLoop_emptySite_none :
    ∀ (rand : Nat → Nat) (fuel k idx T : Nat) (b : JSDate),
      idx ≤ T → runLoop emptySite rand fuel k idx T b = none := by
  intro rand fuel
  induction fuel with
  | zero => intro k idx T b hle; rfl
  | succ fuel ih =>
    intro k idx T b hle
    simp only [runLoop]
    rw [if_pos hle]
    rw [if_neg (by simp [emptySite])]
    have hp : emptySite.pages (k + 1) = emptyPage := rfl
    rw [hp, validate_emptyPage]
    exact ih (k + 1) idx T b hle

/-! ## Claim theorems -/

/-- C1: an evaluated entry makes the run terminate fatally with
`OrderViolation` exactly when its timestamp is strictly greater (JS date
comparison) than the current upper bound; otherwise it is accepted and the
bound becomes this entry's timestamp.  For valid dates the comparison is the
strict order on time values, so an entry whose timestamp equals the bound is
accepted; an `OrderViolation` outcome exits non-zero. -/
theorem c1_entry_rejected_iff_newer :
    (∀ (t : JSDate) (ts : List JSDate) (idx : Nat) (b : JSDate),
        jsDateGt t b = true →
        checkEntries (t :: ts) idx b = .err .OrderViolation) ∧
    (∀ (t : JSDate) (ts : List JSDate) (idx : Nat) (b : JSDate),
        jsDateGt t b = false →
        checkEntries (t :: ts) idx b = checkEntries ts (idx + 1) t) ∧
    (∀ a b : Int, jsDateGt (some a) (some b) = decide (b < a)) ∧
    (∀ (x : Int) (ts : List JSDate) (idx : Nat),
        checkEntries (some x :: ts) idx (some x)
          = checkEntries ts (idx + 1) (some x)) ∧
    (∀ o : RunOutcome, o.result = .err .OrderViolation → exitCode o ≠ 0) := by
  refine ⟨?_, ?_, ?_, ?_, ?_⟩
  · intro t ts idx b h
    simp [checkEntries, h]
  · intro t ts idx b h
    simp [checkEntries, h]
  · intro a b
    rfl
  · intro x ts idx
    simp [checkEntries, jsDateGt]
  · intro o h
    simp [exitCode, h]

/-- C1 witness: concrete instances of all hypothesis-bearing conjuncts. -/
theorem c1_entry_rejected_iff_newer_witness :
    checkEntries [some 5] 1 (some 3) = .err .OrderViolation ∧
    checkEntries [some 2, some 9] 1 (some 3) = checkEntries [some 9] 2 (some 2) ∧
    checkEntries [some 3] 1 (some 3) = checkEntries [] 2 (some 3) ∧
    exitCode ⟨.err .OrderViolation, 1, false⟩ ≠ 0 :=
  ⟨c1_entry_rejected_iff_newer.1 (some 5) [] 1 (some 3) (by decide),
   c1_entry_rejected_iff_newer.2.1 (some 2) [some 9] 1 (some 3) (by decide),
   c1_entry_rejected_iff_newer.2.2.2.1 3 [] 1,
   c1_entry_rejected_iff_newer.2.2.2.2 ⟨.err .OrderViolation, 1, false⟩ rfl⟩

/-- C2 counterexample: a run over entries whose second timestamp is an
Invalid Date succeeds (exit 0) although the verified sequence is not
non-increasing — the second verified timestamp is not `≥` the third — and the
bound moved from a valid date to an invalid one rather than backward in
time. -/
theorem c2_counterexample_invalid_date :
    sortHackerNewsArticles siteInvalidMiddle rand0 3 10 1000
      = some ⟨.ok 4, 1, true⟩ ∧
    (siteInvalidMiddle.pages 1).ages = [some 100, none, some 200] ∧
    jsDateGe ((siteInvalidMiddle.pages 1).ages.getD 1 none)
        ((siteInvalidMiddle.pages 1).ages.getD 2 none) = false ∧
    checkEntries [some 100, none, some 200] 1 (some 1000)
      = .ok (4, some 200) := by
  exact ⟨by decide, rfl, by decide, by decide⟩

/-- C2 (amended): provided every evaluated timestamp parses to a valid date,
the cursor is mutated monotonically — the verified count grows by one per
entry and the bound chain is non-increasing, so `timestamp i ≥ timestamp
(i+1)` across the whole accepted sequence. -/
theorem c2_cursor_monotone_valid_dates :
    ∀ (vs : List Int) (idx : Nat) (b0 : Int) (n : Nat) (b' : JSDate),
      checkEntries (vs.map some) idx (some b0) = .ok (n, b') →
      n = idx + vs.length ∧ List.Chain (fun a b => b ≤ a) b0 vs := by
  intro vs
  induction vs with
  | nil =>
    intro idx b0 n b' h
    simp only [List.map_nil, checkEntries, VResult.ok.injEq,
      Prod.mk.injEq] at h
    exact ⟨by simp [h.1], List.Chain.nil⟩
  | cons v vs ih =>
    intro idx b0 n b' h
    simp only [List.map_cons, checkEntries] at h
    by_cases hgt : jsDateGt (some v) (some b0) = true
    · rw [if_pos hgt] at h
      exact absurd h (by simp)
    · rw [if_neg hgt] at h
      have hle : v ≤ b0 := by
        simp only [jsDateGt, decide_eq_true_eq] at hgt
        omega
      obtain ⟨hn, hchain⟩ := ih (idx + 1) v n b' h
      refine ⟨by simp [hn]; omega, List.Chain.cons hle hchain⟩

/-- C2 witness: the amended statement at a concrete valid-date sequence. -/
theorem c2_cursor_monotone_valid_dates_witness :
    (3 : Nat) = 1 + ([100, 99] : List Int).length ∧
    List.Chain (fun a b => b ≤ a) (1000 : Int) [100, 99] :=
  c2_cursor_monotone_valid_dates [100, 99] 1 1000 3 (some 99) (by decide)

/-- C3: on a structurally consistent page reached with `1 ≤ article_index ≤
T`, the script evaluates exactly `min(entries_on_page, T - verified_so_far)`
entries (where `verified_so_far = article_index - 1`) and no more: the order
check runs over precisely that prefix of the page's timestamps. -/
theorem c3_page_evaluates_min_budget :
    ∀ (p : HNPage) (idx T : Nat) (b : JSDate),
      p.ages.length = p.athings.length →
      p.ages.length = p.scores.length →
      1 ≤ idx → idx ≤ T →
      numToCheckOnPage p.athings.length T idx
          = min p.athings.length (T - (idx - 1)) ∧
      validateArticlesOnPage p idx T b
          = checkEntries (p.ages.take (min p.athings.length (T - (idx - 1))))
              idx b ∧
      (p.ages.take (min p.athings.length (T - (idx - 1)))).length
          = min p.athings.length (T - (idx - 1)) := by
  intro p idx T b h1 h2 hidx hT
  have hmin : numToCheckOnPage p.athings.length T idx
      = min p.athings.length (T - (idx - 1)) := by
    unfold numToCheckOnPage
    omega
  refine ⟨hmin, ?_, ?_⟩
  · simp only [validateArticlesOnPage]
    rw [if_neg (by omega), hmin]
  · rw [List.length_take]
    omega

/-- C3 witness: the fourth page of Scenario D — 30 entries on the page,
budget 10 left (`article_index = 91`, `T = 100`), exactly 10 evaluated. -/
theorem c3_page_evaluates_min_budget_witness :
    numToCheckOnPage page30.athings.length 100 91
        = min page30.athings.length (100 - (91 - 1)) ∧
    validateArticlesOnPage page30 91 100 (some 0)
        = checkEntries
            (page30.ages.take (min page30.athings.length (100 - (91 - 1))))
            91 (some 0) ∧
    (page30.ages.take (min page30.athings.length (100 - (91 - 1)))).length
        = min page30.athings.length (100 - (91 - 1)) :=
  c3_page_evaluates_min_budget page30 91 100 (some 0) rfl rfl
    (by decide) (by decide)

/-- C4: a page whose extracted counts of timestamps, titles and ids do not
all agree makes the run terminate fatally with `StructuralMismatch`,
independently of the bound timestamp — no timestamp comparison influences
the outcome — and that outcome's exit code is non-zero. -/
theorem c4_structural_mismatch_fatal :
    ∀ (p : HNPage) (idx T : Nat) (b b' : JSDate),
      p.ages.length ≠ p.athings.length ∨ p.ages.length ≠ p.scores.length →
      validateArticlesOnPage p idx T b = .err .StructuralMismatch ∧
      validateArticlesOnPage p idx T b = validateArticlesOnPage p idx T b' ∧
      (∀ o : RunOutcome, o.result = .err .StructuralMismatch →
        exitCode o ≠ 0) := by
  intro p idx T b b' h
  have hb : validateArticlesOnPage p idx T b = .err .StructuralMismatch := by
    simp only [validateArticlesOnPage]
    rw [if_pos h]
  have hb' : validateArticlesOnPage p idx T b' = .err .StructuralMismatch := by
    simp only [validateArticlesOnPage]
    rw [if_pos h]
  refine ⟨hb, by rw [hb, hb'], ?_⟩
  intro o ho
  simp [exitCode, ho]

/-- C4 witness: Scenario C — 5 timestamps, 4 titles, 5 ids. -/
theorem c4_structural_mismatch_fatal_witness :
    validateArticlesOnPage pageMismatch 1 100 (some 0)
        = .err .StructuralMismatch ∧
    validateArticlesOnPage pageMismatch 1 100 (some 0)
        = validateArticlesOnPage pageMismatch 1 100 (some 7) ∧
    (∀ o : RunOutcome, o.result = .err .StructuralMismatch →
      exitCode o ≠ 0) :=
  c4_structural_mismatch_fatal pageMismatch 1 100 (some 0) (some 7)
    (by decide)

/-- C5: for any run that terminates, the process exit code is `0` exactly
when the run succeeded with all `T` entries verified in order (final
`article_index = T + 1`, i.e. exactly `T` entries accepted), and every
failure — order violation, structural mismatch, or pagination-control
failure — exits non-zero. -/
theorem c5_exit_zero_iff_target_verified :
    ∀ (site : Site) (rand : Nat → Nat) (T fuel : Nat) (now : Int)
      (o : RunOutcome),
      sortHackerNewsArticles site rand T fuel now = some o →
      (exitCode o = 0 ↔ o.result = .ok (T + 1)) ∧
      (∀ e, o.result = .err e → exitCode o ≠ 0) := by
  intro site rand T fuel now o h
  have herr : ∀ e, o.result = .err e → exitCode o ≠ 0 := by
    intro e he
    simp [exitCode, he]
  refine ⟨⟨?_, ?_⟩, herr⟩
  · intro h0
    cases ho : o.result with
    | err e => exact absurd h0 (herr e ho)
    | ok n =>
      simp only [sortHackerNewsArticles] at h
      by_cases hm : site.moreCount 0 ≠ 1
      · rw [if_pos hm] at h
        injection h with h
        rw [← h] at ho
        exact absurd ho (by simp)
      · rw [if_neg hm] at h
        have := runLoop_ok_target site rand fuel 0 1 T (some now) o n h
          (by omega) ho
        rw [this]
  · intro hres
    simp [exitCode, hres]

/-- C5 witness: the theorem applied to a terminating concrete run (four full
pages of 30 valid entries, `T = 100`). -/
theorem c5_exit_zero_iff_target_verified_witness :
    (exitCode ⟨.ok 101, 4, true⟩ = 0 ↔
      (⟨.ok 101, 4, true⟩ : RunOutcome).result = .ok (100 + 1)) ∧
    (∀ e, (⟨.ok 101, 4, true⟩ : RunOutcome).result = .err e →
      exitCode ⟨.ok 101, 4, true⟩ ≠ 0) :=
  c5_exit_zero_iff_target_verified site30 rand0 100 20 0
    ⟨.ok 101, 4, true⟩ (by decide)

/-- C6: with `T = 0` the walker skips the pagination loop entirely —
immediate success with zero article-page fetches ("More" clicks); with
`T = 100` over pages of 30 entries, exactly 4 fetches happen and the last
page has only its first `min(30, 100 - 91 + 1) = 10` entries evaluated. -/
theorem c6_fetch_count_boundaries :
    (∀ (site : Site) (rand : Nat → Nat) (fuel : Nat) (now : Int),
        site.moreCount 0 = 1 →
        sortHackerNewsArticles site rand 0 (fuel + 1) now
          = some ⟨.ok 1, 0, true⟩) ∧
    sortHackerNewsArticles site30 rand0 100 20 0 = some ⟨.ok 101, 4, true⟩ ∧
    numToCheckOnPage 30 100 91 = 10 := by
  refine ⟨?_, by decide, by decide⟩
  intro site rand fuel now h
  simp [sortHackerNewsArticles, runLoop, h]

/-- C6 witness: the `T = 0` boundary at a concrete site. -/
theorem c6_fetch_count_boundaries_witness :
    sortHackerNewsArticles emptySite rand0 0 (4 + 1) 0
      = some ⟨.ok 1, 0, true⟩ :=
  c6_fetch_count_boundaries.1 emptySite rand0 4 0 rfl

/-- C7: the randomized pacing delays are not a correctness mechanism — two
runs over the same site snapshot agree for any two streams of random draws —
and each `random_delay(200, 800)` value lies in the bounded range
`[200, 999]`. -/
theorem c7_result_independent_of_delays :
    (∀ (site : Site) (rand₁ rand₂ : Nat → Nat) (T fuel : Nat) (now : Int),
        sortHackerNewsArticles site rand₁ T fuel now
          = sortHackerNewsArticles site rand₂ T fuel now) ∧
    (∀ draw : Nat, draw < 800 →
        200 ≤ random_delay 200 800 draw ∧ random_delay 200 800 draw ≤ 999) := by
  constructor
  · intro site rand₁ rand₂ T fuel now
    simp only [sortHackerNewsArticles]
    by_cases hm : site.moreCount 0 ≠ 1
    · rw [if_pos hm, if_pos hm]
    · rw [if_neg hm, if_neg hm]
      exact runLoop_rand_irrelevant site rand₁ rand₂ fuel 0 1 T (some now)
  · intro draw hdraw
    unfold random_delay
    omega

/-- C7 witness: two concrete draw streams, and one concrete draw's bounds. -/
theorem c7_result_independent_of_delays_witness :
    sortHackerNewsArticles site30 rand0 100 20 0
        = sortHackerNewsArticles site30 (fun k => k + 3) 100 20 0 ∧
    (200 ≤ random_delay 200 800 5 ∧ random_delay 200 800 5 ≤ 999) :=
  ⟨c7_result_independent_of_delays.1 site30 rand0 (fun k => k + 3) 100 20 0,
   c7_result_independent_of_delays.2 5 (by decide)⟩

/-- C8 (the code contradicts the claim): every fatal failure path —
structural mismatch here, order violation here — terminates the process
without `page.close()` ever running (`pageClosed = false`), while the
success path does close the page; so not every exit path releases the
session. -/
theorem c8_error_exits_skip_page_close :
    sortHackerNewsArticles siteMismatch rand0 100 10 0
        = some ⟨.err .StructuralMismatch, 1, false⟩ ∧
    sortHackerNewsArticles siteViolation rand0 100 10 1000
        = some ⟨.err .OrderViolation, 1, false⟩ ∧
    sortHackerNewsArticles site30 rand0 100 20 0
        = some ⟨.ok 101, 4, true⟩ := by
  exact ⟨by decide, by decide, by decide⟩

/-- C9: a page with zero extracted entries passes the structural check
(0 = 0 = 0), evaluates `min(0, remaining) = 0` entries and leaves the
cursor unchanged, so on a site of such pages the walker's loop never
terminates: for every fuel bound, the run is still in progress. -/
theorem c9_zero_entry_pages_diverge :
    (∀ (idx T : Nat) (b : JSDate),
        validateArticlesOnPage emptyPage idx T b = .ok (idx, b)) ∧
    (∀ (rand : Nat → Nat) (T fuel : Nat) (now : Int),
        1 ≤ T → sortHackerNewsArticles emptySite rand T fuel now = none) := by
  refine ⟨validate_emptyPage, ?_⟩
  intro rand T fuel now hT
  simp only [sortHackerNewsArticles]
  rw [if_neg (by simp [emptySite])]
  exact runLoop_emptySite_none rand fuel 0 1 T (some now) hT

/-- C9 witness: the all-empty site with target 1 makes no progress within
a concrete fuel bound. -/
theorem c9_zero_entry_pages_diverge_witness :
    validateArticlesOnPage emptyPage 1 100 (some 0) = .ok (1, some 0) ∧
    sortHackerNewsArticles emptySite rand0 1 5 0 = none :=
  ⟨c9_zero_entry_pages_diverge.1 1 100 (some 0),
   c9_zero_entry_pages_diverge.2 rand0 1 5 0 (by decide)⟩

/-- C10 counterexample: after an Invalid-Date entry poisons the bound, the
next entry's (valid) timestamp becomes the new bound and order checking
resumes, so it is not the case that every subsequent entry of the run is
accepted: here the third entry is rejected with `OrderViolation`. -/
theorem c10_counterexample_checks_resume :
    checkEntries [none, some 100, some 200] 1 (some 1000)
        = .err .OrderViolation ∧
    sortHackerNewsArticles siteInvalidFirst rand0 3 10 1000
        = some ⟨.err .OrderViolation, 1, false⟩ := by
  exact ⟨by decide, by decide⟩

/-- C10 (amended): an entry whose timestamp fails to parse (Invalid Date) is
never rejected — the strictly-greater comparison is false for it — and the
bound becomes invalid; the immediately following entry is then accepted
regardless of its timestamp, which becomes the new bound (so checking
resumes from it). -/
theorem c10_invalid_entry_accepted_bound_poisoned :
    (∀ (ts : List JSDate) (idx : Nat) (b : JSDate),
        checkEntries (none :: ts) idx b = checkEntries ts (idx + 1) none) ∧
    (∀ (t : JSDate) (ts : List JSDate) (idx : Nat),
        checkEntries (t :: ts) idx none = checkEntries ts (idx + 1) t) := by
  constructor
  · intro ts idx b
    simp [checkEntries, jsDateGt_none_left]
  · intro t ts idx
    simp [checkEntries, jsDateGt_none_right]
